import Mathlib

/-!
Verification of the Tavus video-generation client and configuration loader
(`tavus_client.py`, `config.py`) of the ai-character-chat-app repository.

The Python code is shallowly embedded: pure data classes become structures,
the HTTP layer is abstracted as an explicit outcome value passed to each
operation, and the polling generator `wait_for_video` becomes a function
producing the finite list of yielded elements, with wall-clock time modelled
ideally (each network call instantaneous, each sleep advancing time by
exactly the poll interval; this realises the maximal number of polls the
real loop can perform).
-/

namespace TavusApp

/-- `VideoCreateResult` dataclass of `tavus_client.py`:
fields `video_id`, `status_url`, `error` (default `None`). -/
structure VideoCreateResult where
  video_id : String
  status_url : String
  error : Option String := none
deriving DecidableEq, Repr

/-- `VideoStatusResult` dataclass of `tavus_client.py`:
fields `status`, `download_url` (default `None`), `status_details` (default `None`). -/
structure VideoStatusResult where
  status : String
  download_url : Option String := none
  status_details : Option String := none
deriving DecidableEq, Repr

/-- `TavusConfig` frozen dataclass of `config.py`, with its literal defaults. -/
structure TavusConfig where
  api_key : String
  replica_id : String
  base_url : String := "https://tavusapi.com"
  request_timeout_seconds : Nat := 30
  poll_interval_seconds : Nat := 10
  poll_max_wait_seconds : Nat := 20 * 60
deriving DecidableEq, Repr

/-- `TavusConfig.videos_url` property: `f"{self.base_url}/v2/videos"`. -/
def TavusConfig.videos_url (c : TavusConfig) : String :=
  c.base_url ++ "/v2/videos"

/-- `AppConfig` frozen dataclass of `config.py`. -/
structure AppConfig where
  groq_api_key : String
  tavus : TavusConfig
  log_level : String := "INFO"
deriving DecidableEq, Repr

/-- The three environment variables `AppConfig.from_env` reads; `none` models
an absent variable (Python `os.getenv(name, "")` then yields `""`). -/
structure Env where
  GROQ_API_KEY : Option String := none
  TAVUS_API_KEY : Option String := none
  TAVUS_REPLICA_ID : Option String := none
deriving DecidableEq, Repr

/-- Python `str.strip()`: remove leading and trailing whitespace. -/
def pyStrip (s : String) : String :=
  ⟨((s.data.dropWhile Char.isWhitespace).reverse.dropWhile Char.isWhitespace).reverse⟩

/-- `AppConfig.from_env` of `config.py`: reads and strips the three variables,
raises `ValueError` (modelled as `Except.error`) when the Groq or Tavus key is
empty, and falls back to the literal `"rcefb7292e"` when the replica id is
empty (`replica_id or "rcefb7292e"`). -/
def AppConfig.from_env (env : Env) : Except String AppConfig :=
  let groq_key := pyStrip (env.GROQ_API_KEY.getD "")
  let tavus_key := pyStrip (env.TAVUS_API_KEY.getD "")
  let replica_id := pyStrip (env.TAVUS_REPLICA_ID.getD "")
  if groq_key = "" ∨ tavus_key = "" then
    Except.error "Missing required env: GROQ_API_KEY and TAVUS_API_KEY must be set in .env"
  else
    Except.ok
      { groq_api_key := groq_key,
        tavus :=
          { api_key := tavus_key,
            replica_id := if replica_id = "" then "rcefb7292e" else replica_id } }

/-- The JSON fields of a creation response that `create_video` reads
(`data.get("error")`, `data.get("message")`, `data.get("status")`,
`data.get("video_id")`); `none` models an absent key. -/
structure JsonBody where
  error : Option String := none
  message : Option String := none
  status : Option String := none
  video_id : Option String := none
deriving DecidableEq, Repr

/-- Outcome of the single `session.post` in `create_video`: either a raised
`requests.RequestException` with its message, or a response with its `ok`
flag, `status_code`, `reason`, and body (`none` models a body on which
`response.json()` raises `ValueError`, which the code replaces by `{}`). -/
inductive PostOutcome where
  | exn (e : String)
  | resp (ok : Bool) (status_code : Nat) (reason : Option String) (body : Option JsonBody)
deriving DecidableEq, Repr

/-- Python `x or y` for an optional string `x`: `None` and `""` are falsy. -/
def pyOr (x : Option String) (y : String) : String :=
  match x with
  | none => y
  | some s => if s = "" then y else s

/-- Python f-string rendering of an `Optional[str]`: `None` prints as "None". -/
def pyShow (x : Option String) : String :=
  match x with
  | none => "None"
  | some s => s

/-- `TavusClient.create_video` of `tavus_client.py`. The second component of
the result records whether the outbound POST was issued (`session.post`
reached). `post` is the outcome of that POST when it is issued. -/
def create_video (tavus : TavusConfig) (script : String) (post : PostOutcome) :
    VideoCreateResult × Bool :=
  let script := pyStrip script
  if script = "" then
    (⟨"", "", some "Script is empty"⟩, false)
  else if tavus.replica_id = "" then
    (⟨"", "", some "TAVUS_REPLICA_ID is not set"⟩, false)
  else
    match post with
    | PostOutcome.exn e => (⟨"", "", some e⟩, true)
    | PostOutcome.resp ok status_code reason body =>
      let data := body.getD {}
      if ok = false then
        (⟨"", "",
          some (pyOr data.error (pyOr data.message
            (pyOr reason ("HTTP " ++ toString status_code))))⟩, true)
      else if data.status ≠ some "queued" then
        (⟨"", "",
          some (pyOr data.error (pyOr data.message
            ("Unexpected status: " ++ pyShow data.status)))⟩, true)
      else
        match data.video_id with
        | none => (⟨"", "", some "No video_id in response"⟩, true)
        | some vid =>
          if vid = "" then (⟨"", "", some "No video_id in response"⟩, true)
          else (⟨vid, tavus.videos_url ++ "/" ++ vid, none⟩, true)

/-- The JSON fields of a status response that `get_status` reads;
`none` models an absent key. -/
structure StatusBody where
  status : Option String := none
  download_url : Option String := none
  status_details : Option String := none
deriving DecidableEq, Repr

/-- Outcome of the single `session.get` plus `raise_for_status` plus
`response.json()` in `get_status`: a raised `requests.RequestException`
(transport failure or non-2xx via `raise_for_status`), a `ValueError` from
`response.json()`, or a parsed body. -/
inductive GetOutcome where
  | exn (e : String)
  | badJson
  | parsed (data : StatusBody)
deriving DecidableEq, Repr

/-- `TavusClient.get_status` of `tavus_client.py`. -/
def get_status (resp : GetOutcome) : VideoStatusResult :=
  match resp with
  | GetOutcome.exn e => ⟨"error", none, some e⟩
  | GetOutcome.badJson => ⟨"error", none, some "Invalid JSON"⟩
  | GetOutcome.parsed data =>
      ⟨data.status.getD "unknown", data.download_url, data.status_details⟩

/-- The final element `wait_for_video` yields when the deadline elapses. -/
def timeoutResult : VideoStatusResult :=
  ⟨"timeout", none, some "Video generation timed out."⟩

/-- Python `x or default` for an `Optional[int]` argument: `None` and `0`
are falsy, so both select the default (used by `wait_for_video` for
`poll_interval` and `max_wait`). -/
def orDefault (x : Option Nat) (d : Nat) : Nat :=
  match x with
  | none => d
  | some n => if n = 0 then d else n

/-- The `while time.monotonic() < deadline` loop of `wait_for_video`,
in ideal time: `t` is the elapsed time (each `get_status` instantaneous,
each `time.sleep(interval)` advancing `t` by `interval`), `k` the index of
the next poll, and `getStatus k` the result of the k-th `get_status` call.
The loop polls, yields, stops after a `ready` or an `error`/`deleted`
result, otherwise sleeps and repeats; when the deadline is reached it
yields the timeout element. Termination requires a positive interval,
exactly as the real loop does. -/
def waitLoop (getStatus : Nat → VideoStatusResult) (interval maxWait : Nat)
    (hpos : 0 < interval) (k t : Nat) : List VideoStatusResult :=
  if _h : t < maxWait then
    if (getStatus k).status = "ready" then [getStatus k]
    else if (getStatus k).status = "error" ∨ (getStatus k).status = "deleted" then [getStatus k]
    else getStatus k :: waitLoop getStatus interval maxWait hpos (k + 1) (t + interval)
  else [timeoutResult]
termination_by maxWait - t
decreasing_by omega

/-- `TavusClient.wait_for_video` of `tavus_client.py`: defaults the interval
and the deadline with Python `or` from the configuration, then runs the
polling loop from time 0. -/
def wait_for_video (cfg : TavusConfig) (getStatus : Nat → VideoStatusResult)
    (poll_interval max_wait : Option Nat)
    (hpos : 0 < orDefault poll_interval cfg.poll_interval_seconds) :
    List VideoStatusResult :=
  waitLoop getStatus (orDefault poll_interval cfg.poll_interval_seconds)
    (orDefault max_wait cfg.poll_max_wait_seconds) hpos 0 0

/-- A status string after which the loop stops polling
(the two `return` statements of the loop body). -/
def stopsLoop (s : String) : Prop :=
  s = "ready" ∨ s = "error" ∨ s = "deleted"

instance (s : String) : Decidable (stopsLoop s) := by
  unfold stopsLoop; infer_instance

/-- A terminal kind in the sense of the spec:
ready, error, deleted or timeout. -/
def isTerminalStatus (s : String) : Prop :=
  s = "ready" ∨ s = "error" ∨ s = "deleted" ∨ s = "timeout"

instance (s : String) : Decidable (isTerminalStatus s) := by
  unfold isTerminalStatus; infer_instance

/-- A configuration value used in the concrete scenarios. -/
def cfgDemo : TavusConfig :=
  { api_key := "k", replica_id := "r" }

/-- A status stream in which every poll returns a bare "generating". -/
def gsGen : Nat → VideoStatusResult := fun _ => ⟨"generating", none, none⟩

/-- A status stream in which every poll returns "ready" with a download URL. -/
def gsReady : Nat → VideoStatusResult := fun _ => ⟨"ready", some "https://x/y.mp4", none⟩

/-! ### Lemmas about the polling loop -/

lemma waitLoop_ne_nil (gs : Nat → VideoStatusResult) (i m : Nat) (h : 0 < i) (k t : Nat) :
    waitLoop gs i m h k t ≠ [] := by
  rw [waitLoop]
  split
  · split
    · simp
    · split <;> simp
  · simp

/-- Every element of the loop output except the last one is a `get_status`
result on which the loop did not stop. -/
lemma waitLoop_dropLast (gs : Nat → VideoStatusResult) (i m : Nat) (h : 0 < i) (k t : Nat) :
    ∀ r ∈ (waitLoop gs i m h k t).dropLast, (∃ j, r = gs j) ∧ ¬ stopsLoop r.status := by
  induction k, t using waitLoop.induct gs i m h with
  | case1 k t ht h1 =>
    rw [waitLoop]
    simp [ht, h1]
  | case2 k t ht h1 h2 =>
    rw [waitLoop]
    simp [ht, h1, h2]
  | case3 k t ht h1 h2 ih =>
    rw [waitLoop]
    simp only [dif_pos ht, if_neg h1, if_neg h2]
    rw [List.dropLast_cons_of_ne_nil (waitLoop_ne_nil gs i m h (k + 1) (t + i))]
    intro r hr
    rcases List.mem_cons.mp hr with hr | hr
    · subst hr
      exact ⟨⟨k, rfl⟩, fun hs => hs.elim h1 h2⟩
    · exact ih r hr
  | case4 k t ht =>
    rw [waitLoop]
    simp [ht]

/-- The last element of the loop output always has a terminal status. -/
lemma waitLoop_getLast_terminal (gs : Nat → VideoStatusResult) (i m : Nat) (h : 0 < i)
    (k t : Nat) :
    ∃ r, (waitLoop gs i m h k t).getLast? = some r ∧ isTerminalStatus r.status := by
  induction k, t using waitLoop.induct gs i m h with
  | case1 k t ht h1 =>
    refine ⟨gs k, ?_, Or.inl h1⟩
    rw [waitLoop]
    simp [ht, h1]
  | case2 k t ht h1 h2 =>
    refine ⟨gs k, ?_, ?_⟩
    · rw [waitLoop]
      simp [ht, h1, h2]
    · rcases h2 with h2 | h2
      · exact Or.inr (Or.inl h2)
      · exact Or.inr (Or.inr (Or.inl h2))
  | case3 k t ht h1 h2 ih =>
    obtain ⟨r, hr, hterm⟩ := ih
    refine ⟨r, ?_, hterm⟩
    rw [waitLoop]
    simp only [dif_pos ht, if_neg h1, if_neg h2]
    obtain ⟨b, l, hbl⟩ := List.exists_cons_of_ne_nil (waitLoop_ne_nil gs i m h (k + 1) (t + i))
    rw [hbl] at hr ⊢
    rw [List.getLast?_cons_cons]
    exact hr
  | case4 k t ht =>
    refine ⟨timeoutResult, ?_, Or.inr (Or.inr (Or.inr rfl))⟩
    rw [waitLoop]
    simp [ht]

/-- If no poll result ever stops the loop, the last element is the timeout
element. -/
lemma waitLoop_getLast_timeout (gs : Nat → VideoStatusResult) (i m : Nat) (h : 0 < i)
    (hgs : ∀ j, ¬ stopsLoop (gs j).status) (k t : Nat) :
    (waitLoop gs i m h k t).getLast? = some timeoutResult := by
  induction k, t using waitLoop.induct gs i m h with
  | case1 k t ht h1 => exact absurd (Or.inl h1) (hgs k)
  | case2 k t ht h1 h2 => exact absurd (Or.inr h2) (hgs k)
  | case3 k t ht h1 h2 ih =>
    rw [waitLoop]
    simp only [dif_pos ht, if_neg h1, if_neg h2]
    obtain ⟨b, l, hbl⟩ := List.exists_cons_of_ne_nil (waitLoop_ne_nil gs i m h (k + 1) (t + i))
    rw [hbl] at ih ⊢
    rw [List.getLast?_cons_cons]
    exact ih
  | case4 k t ht =>
    rw [waitLoop]
    simp [ht]

/-- Ceiling-division arithmetic step used by the length bound. -/
lemma ceil_div_step (a i : Nat) (hi : 0 < i) (ha : 0 < a) :
    (a - i + i - 1) / i + 1 ≤ (a + i - 1) / i := by
  rcases le_or_lt a i with hai | hai
  · have h1 : a - i = 0 := by omega
    have h2 : (0 + i - 1) / i = 0 := Nat.div_eq_of_lt (by omega)
    rw [h1, h2]
    exact (Nat.le_div_iff_mul_le hi).mpr (by omega)
  · have h1 : a - i + i - 1 = a - 1 := by omega
    have h2 : a + i - 1 = a - 1 + i := by omega
    rw [h1, h2, Nat.add_div_right _ hi]

/-- The loop output has at most `⌈(maxWait - t) / interval⌉ + 1` elements. -/
lemma waitLoop_length_le (gs : Nat → VideoStatusResult) (i m : Nat) (h : 0 < i) (k t : Nat) :
    (waitLoop gs i m h k t).length ≤ (m - t + i - 1) / i + 1 := by
  induction k, t using waitLoop.induct gs i m h with
  | case1 k t ht h1 =>
    rw [waitLoop]
    simp only [dif_pos ht, if_pos h1, List.length_singleton]
    exact Nat.succ_le_succ (Nat.zero_le _)
  | case2 k t ht h1 h2 =>
    rw [waitLoop]
    simp only [dif_pos ht, if_neg h1, if_pos h2, List.length_singleton]
    exact Nat.succ_le_succ (Nat.zero_le _)
  | case3 k t ht h1 h2 ih =>
    rw [waitLoop]
    simp only [dif_pos ht, if_neg h1, if_neg h2, List.length_cons]
    have step : (m - (t + i) + i - 1) / i + 1 ≤ (m - t + i - 1) / i := by
      have hsub : m - (t + i) = m - t - i := by omega
      rw [hsub]
      exact ceil_div_step (m - t) i h (by omega)
    calc (waitLoop gs i m h (k + 1) (t + i)).length + 1
        ≤ ((m - (t + i) + i - 1) / i + 1) + 1 := Nat.add_le_add_right ih 1
      _ ≤ (m - t + i - 1) / i + 1 := Nat.add_le_add_right step 1
  | case4 k t ht =>
    rw [waitLoop]
    simp only [dif_neg ht, List.length_singleton]
    exact Nat.succ_le_succ (Nat.zero_le _)

/-- An element on which the loop stops is the last element of the output. -/
lemma waitLoop_stop_is_last (gs : Nat → VideoStatusResult) (i m : Nat) (h : 0 < i)
    (k t : Nat) (j : Nat) (r : VideoStatusResult)
    (hj : (waitLoop gs i m h k t)[j]? = some r) (hs : stopsLoop r.status) :
    j + 1 = (waitLoop gs i m h k t).length := by
  obtain ⟨hlt, hel⟩ := List.getElem?_eq_some.mp hj
  by_contra hne
  have hjlt : j < (waitLoop gs i m h k t).dropLast.length := by
    rw [List.length_dropLast]
    omega
  have hmem : r ∈ (waitLoop gs i m h k t).dropLast := by
    have := List.getElem_dropLast (waitLoop gs i m h k t) j hjlt
    rw [hel] at this
    rw [← this]
    exact List.getElem_mem hjlt
  exact (waitLoop_dropLast gs i m h k t r hmem).2 hs

/-! ### Claim theorems -/

/-- C4, counterexample: with both API keys set but `TAVUS_REPLICA_ID` absent,
`AppConfig.from_env` does not fail; it returns a configuration whose replica
id is the hard-coded demo fallback `"rcefb7292e"`, contradicting the claim
that an absent persona identifier makes configuration loading fail fast. -/
theorem spec_C4_counterexample :
    AppConfig.from_env
        { GROQ_API_KEY := some "g", TAVUS_API_KEY := some "t", TAVUS_REPLICA_ID := none } =
      Except.ok { groq_api_key := "g", tavus := { api_key := "t", replica_id := "rcefb7292e" } } := by
  rfl

/-- C4 (amended): if either required credential (`GROQ_API_KEY` or
`TAVUS_API_KEY`) is absent or empty after trimming, `from_env` fails with the
error naming the required variables; an absent or empty replica identifier
does not cause a failure but is replaced by the non-empty demo fallback, so
every configuration `from_env` returns has a non-empty Groq key, a non-empty
Tavus key and a non-empty replica identifier. -/
theorem spec_C4 (env : Env) :
    ((pyStrip (env.GROQ_API_KEY.getD "") = "" ∨ pyStrip (env.TAVUS_API_KEY.getD "") = "") →
      AppConfig.from_env env =
        Except.error
          "Missing required env: GROQ_API_KEY and TAVUS_API_KEY must be set in .env") ∧
    (∀ cfg, AppConfig.from_env env = Except.ok cfg →
      cfg.groq_api_key ≠ "" ∧ cfg.tavus.api_key ≠ "" ∧ cfg.tavus.replica_id ≠ "") := by
  constructor
  · intro hmiss
    unfold AppConfig.from_env
    rw [if_pos hmiss]
  · intro cfg hok
    unfold AppConfig.from_env at hok
    by_cases hcond :
        pyStrip (env.GROQ_API_KEY.getD "") = "" ∨ pyStrip (env.TAVUS_API_KEY.getD "") = ""
    · rw [if_pos hcond] at hok
      exact absurd hok (by simp)
    · rw [if_neg hcond] at hok
      push_neg at hcond
      obtain ⟨hg, ht⟩ := hcond
      have hcfg := Except.ok.inj hok
      subst hcfg
      refine ⟨hg, ht, ?_⟩
      dsimp only
      split
      · decide
      · assumption

/-- C4 witness: with `GROQ_API_KEY` absent, `from_env` fails with the
configuration error. -/
theorem spec_C4_witness :
    AppConfig.from_env { TAVUS_API_KEY := some "t", TAVUS_REPLICA_ID := some "r" } =
      Except.error
        "Missing required env: GROQ_API_KEY and TAVUS_API_KEY must be set in .env" :=
  (spec_C4 _).1 (Or.inl rfl)

/-- C5: for every script that is empty or whitespace-only after trimming,
`create_video` returns the "Script is empty" error outcome and the outbound
POST is never issued (second component `false`). -/
theorem spec_C5 (tavus : TavusConfig) (post : PostOutcome) (script : String)
    (h : pyStrip script = "") :
    (create_video tavus script post).1.error = some "Script is empty" ∧
    (create_video tavus script post).2 = false := by
  simp [create_video, h]

/-- C5 witness: a whitespace-only script at a concrete configuration. -/
theorem spec_C5_witness :
    pyStrip " " = "" ∧
    ((create_video cfgDemo " " (PostOutcome.exn "boom")).1.error = some "Script is empty" ∧
      (create_video cfgDemo " " (PostOutcome.exn "boom")).2 = false) :=
  ⟨rfl, spec_C5 cfgDemo (PostOutcome.exn "boom") " " rfl⟩

/-- C6, counterexample: on a successful "queued" response with no `video_id`,
the error message `create_video` actually returns is the literal
"No video_id in response", not the claimed "no job handle in response". -/
theorem spec_C6_counterexample :
    (create_video cfgDemo "Hello world"
        (PostOutcome.resp true 200 (some "OK") (some { status := some "queued" }))).1.error =
      some "No video_id in response" ∧
    (create_video cfgDemo "Hello world"
        (PostOutcome.resp true 200 (some "OK") (some { status := some "queued" }))).1.error ≠
      some "no job handle in response" := by
  decide

/-- C6 (amended): for every successful creation response with status "queued"
but no `video_id` field, `create_video` returns an error outcome whose error
message is the code's literal "No video_id in response" and whose job handle
and status locator are empty. -/
theorem spec_C6 (tavus : TavusConfig) (script : String) (code : Nat) (reason : Option String)
    (data : JsonBody) (hscript : pyStrip script ≠ "") (hreplica : tavus.replica_id ≠ "")
    (hq : data.status = some "queued") (hvid : data.video_id = none) :
    (create_video tavus script (PostOutcome.resp true code reason (some data))).1 =
      ⟨"", "", some "No video_id in response"⟩ := by
  simp [create_video, hscript, hreplica, hq, hvid]

/-- C6 witness: a concrete queued response with no `video_id`. -/
theorem spec_C6_witness :
    (create_video cfgDemo "Hello world"
        (PostOutcome.resp true 201 none (some { status := some "queued" }))).1 =
      ⟨"", "", some "No video_id in response"⟩ :=
  spec_C6 cfgDemo "Hello world" 201 none { status := some "queued" }
    (by decide) (by decide) rfl rfl

/-- C7, counterexample: a parsed status body whose status field holds a value
outside the known set is not mapped to "unknown": `get_status` passes the
verbatim string through. -/
theorem spec_C7_counterexample :
    (get_status (GetOutcome.parsed { status := some "bogus" })).status = "bogus" ∧
    (get_status (GetOutcome.parsed { status := some "bogus" })).status ≠ "unknown" := by
  decide

/-- C7 (amended): for every successfully parsed status body, a missing status
field maps to "unknown", and a present status field is passed through
verbatim (so a value outside {queued, generating, ready, error, deleted}
yields that very value, which the polling loop treats as non-terminal). -/
theorem spec_C7 (data : StatusBody) :
    (data.status = none → (get_status (GetOutcome.parsed data)).status = "unknown") ∧
    (∀ s, data.status = some s → (get_status (GetOutcome.parsed data)).status = s) := by
  constructor
  · intro hnone
    simp [get_status, hnone]
  · intro s hs
    simp [get_status, hs]

/-- C7 witness: a body with no status field maps to "unknown", and a body
with status "generating" keeps it. -/
theorem spec_C7_witness :
    (get_status (GetOutcome.parsed {})).status = "unknown" ∧
    (get_status (GetOutcome.parsed { status := some "generating" })).status = "generating" :=
  ⟨(spec_C7 {}).1 rfl, (spec_C7 { status := some "generating" }).2 "generating" rfl⟩

/-- C8, counterexample: on an unparsable response body (a `ValueError` from
`response.json()`), the detail string `get_status` actually returns is the
literal "Invalid JSON", not the claimed "invalid response body". -/
theorem spec_C8_counterexample :
    (get_status GetOutcome.badJson).status_details = some "Invalid JSON" ∧
    (get_status GetOutcome.badJson).status_details ≠ some "invalid response body" := by
  decide

/-- C8 (amended): on an unparsable response body, `get_status` returns kind
"error" with detail string exactly "Invalid JSON". -/
theorem spec_C8 :
    (get_status GetOutcome.badJson).status = "error" ∧
    (get_status GetOutcome.badJson).status_details = some "Invalid JSON" := by
  decide

/-- C9: for every configuration, script and POST outcome, the result of
`create_video` populates exactly one side: either the error is absent and
both the job handle (`video_id`) and the status locator (`status_url`) are
non-empty, or the error is present and both are empty. -/
theorem spec_C9 (tavus : TavusConfig) (script : String) (post : PostOutcome) :
    ((create_video tavus script post).1.error = none ∧
      (create_video tavus script post).1.video_id ≠ "" ∧
      (create_video tavus script post).1.status_url ≠ "") ∨
    ((create_video tavus script post).1.error ≠ none ∧
      (create_video tavus script post).1.video_id = "" ∧
      (create_video tavus script post).1.status_url = "") := by
  have hurl : ∀ vid : String, vid ≠ "" → tavus.videos_url ++ "/" ++ vid ≠ "" := by
    intro vid _ hc
    have hlen := congrArg String.length hc
    have h1 : ("/v2/videos" : String).length = 10 := rfl
    have h2 : ("/" : String).length = 1 := rfl
    have h3 : ("" : String).length = 0 := rfl
    rw [String.length_append, String.length_append, TavusConfig.videos_url,
      String.length_append, h1, h2, h3] at hlen
    omega
  unfold create_video
  dsimp only
  split
  · right; simp
  · split
    · right; simp
    · cases post with
      | exn e => right; simp
      | resp ok code reason body =>
        dsimp only
        split
        · right; simp
        · split
          · right; simp
          · split
            · right; simp
            · rename_i vid _
              split
              · right; simp
              · rename_i hvid
                left
                exact ⟨rfl, hvid, hurl vid hvid⟩

/-- C1, counterexample: with `pollInterval = 10` and `maxWait = 15` and every
poll returning "generating", `wait_for_video` yields 3 elements (polls at
ideal times 0 and 10, then the timeout element), which exceeds
`maxWait / pollInterval + 1` both under integer division (2) and under exact
division (2.5). -/
theorem spec_C1_counterexample :
    ¬ ((wait_for_video cfgDemo gsGen (some 10) (some 15) (by decide)).length ≤ 15 / 10 + 1) ∧
    ¬ (((wait_for_video cfgDemo gsGen (some 10) (some 15) (by decide)).length : ℚ) ≤
        15 / 10 + 1) := by
  have hl : (wait_for_video cfgDemo gsGen (some 10) (some 15) (by decide)).length = 3 := by
    simp [wait_for_video, waitLoop, gsGen, orDefault, cfgDemo]
  rw [hl]
  constructor
  · decide
  · norm_num

/-- C1 (amended): for every status stream and positive `pollInterval` and
`maxWait`, `wait_for_video` produces a finite sequence of at most
`⌈maxWait / pollInterval⌉ + 1` elements (which is `maxWait / pollInterval + 1`
whenever `pollInterval` divides `maxWait`), and the last element's kind is
one of ready, error, deleted, timeout. -/
theorem spec_C1 (cfg : TavusConfig) (gs : Nat → VideoStatusResult) (i m : Nat)
    (hi : 0 < i) (hm : 0 < m)
    (h : 0 < orDefault (some i) cfg.poll_interval_seconds) :
    (wait_for_video cfg gs (some i) (some m) h).length ≤ (m + i - 1) / i + 1 ∧
    ∃ r, (wait_for_video cfg gs (some i) (some m) h).getLast? = some r ∧
      isTerminalStatus r.status := by
  have hio : orDefault (some i) cfg.poll_interval_seconds = i := by
    simp [orDefault, Nat.pos_iff_ne_zero.mp hi]
  have hmo : orDefault (some m) cfg.poll_max_wait_seconds = m := by
    simp [orDefault, Nat.pos_iff_ne_zero.mp hm]
  unfold wait_for_video
  revert h
  rw [hio, hmo]
  intro h
  constructor
  · have hb := waitLoop_length_le gs i m h 0 0
    rwa [Nat.sub_zero] at hb
  · exact waitLoop_getLast_terminal gs i m h 0 0

/-- C1 witness: the bound and the terminal last element at the concrete
counterexample run (3 elements, bound `⌈15/10⌉ + 1 = 3`). -/
theorem spec_C1_witness :
    (wait_for_video cfgDemo gsGen (some 10) (some 15) (by decide)).length ≤
      (15 + 10 - 1) / 10 + 1 ∧
    ∃ r, (wait_for_video cfgDemo gsGen (some 10) (some 15) (by decide)).getLast? = some r ∧
      isTerminalStatus r.status :=
  spec_C1 cfgDemo gsGen 10 15 (by decide) (by decide) (by decide)

/-- C2: if every polled status has kind "generating", the sequence ends with
the timeout element and no element before it has a terminal kind; and in the
concrete scenario `pollInterval = 10`, `maxWait = 20`, the sequence is
exactly the two "generating" poll results followed by the timeout element. -/
theorem spec_C2 (gs : Nat → VideoStatusResult)
    (hgen : ∀ k, (gs k).status = "generating") :
    (∀ (cfg : TavusConfig) (pi mw : Option Nat)
        (h : 0 < orDefault pi cfg.poll_interval_seconds),
      (wait_for_video cfg gs pi mw h).getLast? = some timeoutResult ∧
      ∀ r ∈ (wait_for_video cfg gs pi mw h).dropLast, ¬ isTerminalStatus r.status) ∧
    (∀ (cfg : TavusConfig) (h : 0 < orDefault (some 10) cfg.poll_interval_seconds),
      wait_for_video cfg gs (some 10) (some 20) h = [gs 0, gs 1, timeoutResult] ∧
      (gs 0).status = "generating" ∧ (gs 1).status = "generating") := by
  have hstops : ∀ j, ¬ stopsLoop (gs j).status := by
    intro j hs
    rw [hgen j] at hs
    exact absurd hs (by decide)
  constructor
  · intro cfg pi mw h
    constructor
    · exact waitLoop_getLast_timeout gs _ _ h hstops 0 0
    · intro r hr hterm
      obtain ⟨⟨j, rfl⟩, _⟩ := waitLoop_dropLast gs _ _ h 0 0 r hr
      rw [hgen j] at hterm
      exact absurd hterm (by decide)
  · intro cfg h
    refine ⟨?_, hgen 0, hgen 1⟩
    unfold wait_for_video
    simp [waitLoop, hgen, orDefault]

/-- C2 witness: the all-generating stream at a concrete configuration. -/
theorem spec_C2_witness :
    wait_for_video cfgDemo gsGen (some 10) (some 20) (by decide) =
      [gsGen 0, gsGen 1, timeoutResult] ∧
    (gsGen 0).status = "generating" ∧ (gsGen 1).status = "generating" :=
  (spec_C2 gsGen (fun _ => rfl)).2 cfgDemo (by decide)

/-- C3: if some element of a `wait_for_video` run has kind "ready" with a
non-empty download locator, it is the last element of the sequence (so no
poll occurs after it), and it is the only element with kind "ready" (hence
both the first and the last such element). -/
theorem spec_C3 (cfg : TavusConfig) (gs : Nat → VideoStatusResult) (pi mw : Option Nat)
    (h : 0 < orDefault pi cfg.poll_interval_seconds) (j : Nat) (r : VideoStatusResult)
    (hr : (wait_for_video cfg gs pi mw h)[j]? = some r)
    (hready : r.status = "ready")
    (_hurl : ∃ u, r.download_url = some u ∧ u ≠ "") :
    j + 1 = (wait_for_video cfg gs pi mw h).length ∧
    ∀ j2 r2, (wait_for_video cfg gs pi mw h)[j2]? = some r2 → r2.status = "ready" →
      j2 = j := by
  unfold wait_for_video at hr ⊢
  have hlast := waitLoop_stop_is_last gs _ _ h 0 0 j r hr (Or.inl hready)
  refine ⟨hlast, ?_⟩
  intro j2 r2 hr2 hready2
  have hlast2 := waitLoop_stop_is_last gs _ _ h 0 0 j2 r2 hr2 (Or.inl hready2)
  omega

/-- C3 witness: a run whose first poll is "ready" with a download URL ends
at that element. -/
theorem spec_C3_witness :
    0 + 1 = (wait_for_video cfgDemo gsReady none none (by decide)).length :=
  (spec_C3 cfgDemo gsReady none none (by decide) 0 ⟨"ready", some "https://x/y.mp4", none⟩
    (by simp [wait_for_video, waitLoop, gsReady, orDefault, cfgDemo])
    rfl ⟨"https://x/y.mp4", rfl, by decide⟩).1

/-- C10: passing `0` for `poll_interval` or `max_wait` is falsy for Python
`or`, so the configured default is used, exactly as when passing `None`:
the defaulted values coincide and the produced sequences are identical. -/
theorem spec_C10 (cfg : TavusConfig) (gs : Nat → VideoStatusResult) (mw : Option Nat)
    (h : 0 < cfg.poll_interval_seconds) :
    orDefault (some 0) cfg.poll_interval_seconds =
      orDefault none cfg.poll_interval_seconds ∧
    orDefault (some 0) cfg.poll_max_wait_seconds =
      orDefault none cfg.poll_max_wait_seconds ∧
    wait_for_video cfg gs (some 0) mw h = wait_for_video cfg gs none mw h ∧
    wait_for_video cfg gs none (some 0) h = wait_for_video cfg gs none none h :=
  ⟨rfl, rfl, rfl, rfl⟩

/-- C10 witness: the defaulting behaviour at a concrete configuration. -/
theorem spec_C10_witness :
    orDefault (some 0) cfgDemo.poll_interval_seconds =
      orDefault none cfgDemo.poll_interval_seconds ∧
    orDefault (some 0) cfgDemo.poll_max_wait_seconds =
      orDefault none cfgDemo.poll_max_wait_seconds ∧
    wait_for_video cfgDemo gsGen (some 0) (some 20) (by decide) =
      wait_for_video cfgDemo gsGen none (some 20) (by decide) ∧
    wait_for_video cfgDemo gsGen none (some 0) (by decide) =
      wait_for_video cfgDemo gsGen none none (by decide) :=
  spec_C10 cfgDemo gsGen (some 20) (by decide)

end TavusApp
